import Mathlib

/-!
Shallow embedding of the honnisha/RakNet connection layer and offline packet
codec. Pure functions from `src/protocol/packet/offline.rs` and
`src/connection/conn.rs` are translated directly; repository modules that the
source references but that are not part of the provided sources (the internal
`Queue`, `ConnectionState`, the `Magic` wire type, the packet handlers) are
modelled from the specification, each marked `Modelled from the spec:` in its
doc comment. Machine integers are `Nat` (or `Int` for `i64`) with explicit
`% 2^w` where Rust truncates.
-/

namespace RakNet

/-- A wire buffer: a list of byte values (each intended `< 256`). -/
abbrev Bytes := List Nat

/-- Big-endian encoding of a `u8` (Rust `write_u8`, truncating). -/
def u8be (n : Nat) : Bytes := [n % 256]

/-- Big-endian encoding of a `u16`. -/
def u16be (n : Nat) : Bytes := [n / 256 % 256, n % 256]

/-- Big-endian encoding of a `u64`. -/
def u64be (n : Nat) : Bytes :=
  [n / 2 ^ 56 % 256, n / 2 ^ 48 % 256, n / 2 ^ 40 % 256, n / 2 ^ 32 % 256,
   n / 2 ^ 24 % 256, n / 2 ^ 16 % 256, n / 2 ^ 8 % 256, n % 256]

/-- Big-endian encoding of an `i64`: the two's-complement bit pattern as `u64`. -/
def i64be (i : Int) : Bytes := u64be ((i % (2 ^ 64 : Int))).toNat

/-- Encoding of a `bool` as one byte. -/
def boolByte (b : Bool) : Bytes := [if b then 1 else 0]

/-- Decode a `u8` at `pos`; fails (like `BinaryError`) when out of bounds.
Wire buffers hold byte values, so no masking is applied on read. -/
def u8c (s : Bytes) (pos : Nat) : Option (Nat × Nat) :=
  match s.get? pos with
  | some b => some (b, pos + 1)
  | none => none

/-- Fold bytes big-endian into a `Nat`. -/
def bytesToNat (l : Bytes) : Nat := l.foldl (fun a b => a * 256 + b % 256) 0

/-- Decode a big-endian `u16` at `pos`. -/
def u16c (s : Bytes) (pos : Nat) : Option (Nat × Nat) :=
  if pos + 2 ≤ s.length then some (bytesToNat ((s.drop pos).take 2), pos + 2) else none

/-- Decode a big-endian `u64` at `pos`. -/
def u64c (s : Bytes) (pos : Nat) : Option (Nat × Nat) :=
  if pos + 8 ≤ s.length then some (bytesToNat ((s.drop pos).take 8), pos + 8) else none

/-- Decode an `i64` at `pos` (two's complement). -/
def i64c (s : Bytes) (pos : Nat) : Option (Int × Nat) :=
  match u64c s pos with
  | some (n, p) => some (if n < 2 ^ 63 then (n : Int) else (n : Int) - 2 ^ 64, p)
  | none => none

/-- The 16 bytes of the RakNet magic cookie `0x00ffff00fefefefefdfdfdfd12345678`. -/
def magicBytes : Bytes :=
  [0x00, 0xff, 0xff, 0x00, 0xfe, 0xfe, 0xfe, 0xfe,
   0xfd, 0xfd, 0xfd, 0xfd, 0x12, 0x34, 0x56, 0x78]

/-- Modelled from the spec: the `Magic` wire type of `crate::protocol::util`
(not among the provided sources). §4.A lists the fixed 16-byte magic cookie as
a codec type whose decode fails when bounds are exceeded. It carries no data. -/
structure Magic where
  deriving DecidableEq

/-- Modelled from the spec: `Magic::parse` emits the fixed 16-byte cookie. -/
def Magic.parse (_m : Magic) : Bytes := magicBytes

/-- Modelled from the spec: `Magic::compose` consumes 16 bytes, failing with
`Malformed` when the buffer is too short (§4.A). -/
def Magic.compose (s : Bytes) (pos : Nat) : Option (Magic × Nat) :=
  if pos + 16 ≤ s.length then some (⟨⟩, pos + 16) else none

/-- `UnconnectedPing` from `offline.rs`: fields `timestamp: u64`, `magic`,
`client_id: i64`, encoded in declaration order by the `BinaryStream` derive. -/
structure UnconnectedPing where
  timestamp : Nat
  client_id : Int
  deriving DecidableEq

/-- Body encoding of `UnconnectedPing` (after the packet-ID byte). -/
def UnconnectedPing.parse (p : UnconnectedPing) : Bytes :=
  u64be p.timestamp ++ magicBytes ++ i64be p.client_id

/-- Field-by-field decode of `UnconnectedPing` (the `BinaryStream` derive). -/
def UnconnectedPing.compose (s : Bytes) (pos : Nat) : Option (UnconnectedPing × Nat) :=
  match u64c s pos with
  | some (ts, p1) =>
    match Magic.compose s p1 with
    | some (_, p2) =>
      match i64c s p2 with
      | some (cid, p3) => some ({ timestamp := ts, client_id := cid }, p3)
      | none => none
    | none => none
  | none => none

/-- `UnconnectedPong` from `offline.rs` with the `mcpe` feature disabled:
fields `timestamp: u64`, `server_id: u64`, `magic` — no MOTD string. -/
structure UnconnectedPong where
  timestamp : Nat
  server_id : Nat
  deriving DecidableEq

/-- Body encoding of `UnconnectedPong` (non-mcpe). -/
def UnconnectedPong.parse (p : UnconnectedPong) : Bytes :=
  u64be p.timestamp ++ u64be p.server_id ++ magicBytes

/-- Field-by-field decode of `UnconnectedPong` (non-mcpe). -/
def UnconnectedPong.compose (s : Bytes) (pos : Nat) : Option (UnconnectedPong × Nat) :=
  match u64c s pos with
  | some (ts, p1) =>
    match u64c s p1 with
    | some (sid, p2) =>
      match Magic.compose s p2 with
      | some (_, p3) => some ({ timestamp := ts, server_id := sid }, p3)
      | none => none
    | none => none
  | none => none

/-- `OpenConnectRequest` from `offline.rs`: `magic`, `protocol: u8`,
`mtu_size: u16`. -/
structure OpenConnectRequest where
  protocol : Nat
  mtu_size : Nat
  deriving DecidableEq

/-- Hand-written `Streamable::compose` for `OpenConnectRequest` in
`offline.rs`: reads magic and protocol, then sets
`mtu_size = (source.len() + 1 + 28) as u16`, never reading the padding. -/
def OpenConnectRequest.compose (source : Bytes) (position : Nat) :
    Option (OpenConnectRequest × Nat) :=
  match Magic.compose source position with
  | some (_, p1) =>
    match u8c source p1 with
    | some (proto, p2) =>
      some ({ protocol := proto, mtu_size := (source.length + 1 + 28) % 2 ^ 16 }, p2)
    | none => none
  | none => none

/-- Hand-written `Streamable::parse` for `OpenConnectRequest` in `offline.rs`:
magic, protocol byte, then `mtu_size` zero padding bytes. -/
def OpenConnectRequest.parse (p : OpenConnectRequest) : Bytes :=
  magicBytes ++ u8be p.protocol ++ List.replicate p.mtu_size 0

/-- `OpenConnectReply` from `offline.rs`: `magic`, `server_id: u64`,
`security: bool`, `mtu_size: u16`. -/
structure OpenConnectReply where
  server_id : Nat
  security : Bool
  mtu_size : Nat
  deriving DecidableEq

/-- Body encoding of `OpenConnectReply`. -/
def OpenConnectReply.parse (p : OpenConnectReply) : Bytes :=
  magicBytes ++ u64be p.server_id ++ boolByte p.security ++ u16be p.mtu_size

/-- Modelled from the spec: the §4.A `SocketAddress` codec (the `SocketAddr`
`Streamable` impl lives in the external `binary_utils` crate): version byte,
then the address bytes bitwise-inverted for IPv4, then the port. Only IPv4 is
modelled; no claim depends on the address layout. -/
structure SockAddr where
  a : Nat
  b : Nat
  c : Nat
  d : Nat
  port : Nat
  deriving DecidableEq

/-- Modelled from the spec: IPv4 socket-address encoding (§4.A). -/
def SockAddr.parse (s : SockAddr) : Bytes :=
  [4, 255 - s.a % 256, 255 - s.b % 256, 255 - s.c % 256, 255 - s.d % 256] ++ u16be s.port

/-- Modelled from the spec: IPv4 socket-address decode (§4.A). -/
def SockAddr.compose (s : Bytes) (pos : Nat) : Option (SockAddr × Nat) :=
  if pos + 7 ≤ s.length then
    match (s.drop pos).take 5 with
    | [4, ia, ib, ic, id] =>
      some ({ a := 255 - ia % 256, b := 255 - ib % 256, c := 255 - ic % 256,
              d := 255 - id % 256, port := bytesToNat ((s.drop (pos + 5)).take 2) }, pos + 7)
    | _ => none
  else none

/-- `SessionInfoRequest` from `offline.rs`: `magic`, `address: SocketAddr`,
`mtu_size: u16`, `client_id: i64`. -/
structure SessionInfoRequest where
  address : SockAddr
  mtu_size : Nat
  client_id : Int
  deriving DecidableEq

/-- Body encoding of `SessionInfoRequest`. -/
def SessionInfoRequest.parse (p : SessionInfoRequest) : Bytes :=
  magicBytes ++ p.address.parse ++ u16be p.mtu_size ++ i64be p.client_id

/-- Field-by-field decode of `SessionInfoRequest`. -/
def SessionInfoRequest.compose (s : Bytes) (pos : Nat) :
    Option (SessionInfoRequest × Nat) :=
  match Magic.compose s pos with
  | some (_, p1) =>
    match SockAddr.compose s p1 with
    | some (addr, p2) =>
      match u16c s p2 with
      | some (mtu, p3) =>
        match i64c s p3 with
        | some (cid, p4) => some ({ address := addr, mtu_size := mtu, client_id := cid }, p4)
        | none => none
      | none => none
    | none => none
  | none => none

/-- `SessionInfoReply` from `offline.rs`: `magic`, `server_id: u64`,
`client_address: SocketAddr`, `mtu_size: u16`, `security: bool`. -/
structure SessionInfoReply where
  server_id : Nat
  client_address : SockAddr
  mtu_size : Nat
  security : Bool
  deriving DecidableEq

/-- Body encoding of `SessionInfoReply`. -/
def SessionInfoReply.parse (p : SessionInfoReply) : Bytes :=
  magicBytes ++ u64be p.server_id ++ p.client_address.parse ++
    u16be p.mtu_size ++ boolByte p.security

/-- `IncompatibleProtocolVersion` from `offline.rs`: `protocol: u8`, `magic`,
`server_id: u64` — the protocol byte comes first. -/
structure IncompatibleProtocolVersion where
  protocol : Nat
  server_id : Nat
  deriving DecidableEq

/-- Body encoding of `IncompatibleProtocolVersion`. -/
def IncompatibleProtocolVersion.parse (p : IncompatibleProtocolVersion) : Bytes :=
  u8be p.protocol ++ magicBytes ++ u64be p.server_id

/-- Packet ID assigned by `packet_id!(UnconnectedPing, 0x01)`. -/
def UnconnectedPing.id : Nat := 0x01

/-- Packet ID assigned by `packet_id!(UnconnectedPong, 0x1c)` (non-mcpe). -/
def UnconnectedPong.id : Nat := 0x1c

/-- Packet ID assigned by `packet_id!(OpenConnectRequest, 0x05)`. -/
def OpenConnectRequest.id : Nat := 0x05

/-- Packet ID assigned by `packet_id!(OpenConnectReply, 0x06)`. -/
def OpenConnectReply.id : Nat := 0x06

/-- Packet ID assigned by `packet_id!(SessionInfoRequest, 0x07)`. -/
def SessionInfoRequest.id : Nat := 0x07

/-- Packet ID assigned by `packet_id!(SessionInfoReply, 0x08)`. -/
def SessionInfoReply.id : Nat := 0x08

/-- Packet ID assigned by `packet_id!(IncompatibleProtocolVersion, 0x19)`. -/
def IncompatibleProtocolVersion.id : Nat := 0x19

/-- `SendPriority` of `crate::internal::queue` (module not among the provided
sources). Modelled from the spec: "Priority is one of {Immediate, Normal, Low,
Drop}" (§4.C). -/
inductive SendPriority where
  | Immediate
  | Normal
  | Low
  | Drop
  deriving DecidableEq

/-- Modelled from the spec: the internal send `Queue` of §4.C. It batches
`Normal` and `Low` payloads (Low yields to Normal), can be frozen (pushes are
then ignored, per the "Freeze the queue" comment in `Connection::disconnect`),
and `flush` drains everything. `Drop`-priority payloads are discarded. An
`Immediate` push never reaches the queue from `Connection`, and is batched as
`Normal` here. -/
structure Queue (α : Type) where
  normal : List α
  low : List α
  frozen : Bool
  deriving DecidableEq

/-- Modelled from the spec: `Queue::new` starts empty and unfrozen. -/
def Queue.new {α : Type} : Queue α := { normal := [], low := [], frozen := false }

/-- Modelled from the spec: `Queue::push` appends at the given priority unless
the queue is frozen. -/
def Queue.push {α : Type} (q : Queue α) (item : α) (priority : SendPriority) : Queue α :=
  if q.frozen then q
  else
    match priority with
    | .Immediate => { q with normal := q.normal ++ [item] }
    | .Normal => { q with normal := q.normal ++ [item] }
    | .Low => { q with low := q.low ++ [item] }
    | .Drop => q

/-- Modelled from the spec: `Queue::flush` drains the pending payloads, Normal
before Low, leaving the queue empty. -/
def Queue.flush {α : Type} (q : Queue α) : Queue α × List α :=
  ({ q with normal := [], low := [] }, q.normal ++ q.low)

/-- `ConnectionState` of `crate::connection::state` (module not among the
provided sources). Modelled from the spec: the §4.E state list. -/
inductive ConnectionState where
  | Unidentified
  | Initializing
  | Connecting
  | Connected
  | Disconnecting
  | Offline
  deriving DecidableEq

/-- Modelled from the spec: `ConnectionState::is_reliable`. The spec does not
define it beyond `Offline` being unusable; every non-`Offline` state is
treated as reliable. -/
def ConnectionState.is_reliable (s : ConnectionState) : Bool :=
  match s with
  | .Offline => false
  | _ => true

/-- `RakEvent` of `crate::server` (module not among the provided sources).
Modelled from the spec: events surfaced to the application are
`Disconnect(address, reason)` (§7) and the `Connect` event (§4.E). -/
inductive RakEvent where
  | Connect (address : String)
  | Disconnect (address : String) (reason : String)
  deriving DecidableEq

/-- Modelled from the spec: the mcpe `Motd` configuration struct (§6); only
the fields `Motd::new(server_guid, port)` receives are kept, as nothing in the
claims reads it. -/
structure Motd where
  server_guid : Nat
  port : String
  deriving DecidableEq

/-- Modelled from the spec: `Motd::new`. -/
def Motd.new (server_guid : Nat) (port : String) : Motd :=
  { server_guid := server_guid, port := port }

/-- The repository's `Packet` sum (offline packets from `offline.rs`; the
online packets' bodies are modelled from the spec, which fixes only their IDs
and the fields named in §4.E). -/
inductive Packet where
  | unconnectedPing (p : UnconnectedPing)
  | unconnectedPong (p : UnconnectedPong)
  | openConnectRequest (p : OpenConnectRequest)
  | openConnectReply (p : OpenConnectReply)
  | sessionInfoRequest (p : SessionInfoRequest)
  | sessionInfoReply (p : SessionInfoReply)
  | incompatibleProtocolVersion (p : IncompatibleProtocolVersion)
  | connectedPing (time : Nat)
  | connectedPong (pingTime : Nat) (pongTime : Nat)
  | connectionRequest (clientGuid : Nat) (time : Nat)
  | connectionRequestAccepted (requestTime : Nat) (acceptedTime : Nat)
  | newIncomingConnection
  | disconnectPk
  deriving DecidableEq

/-- Whether the packet is an online (frame-delivered) packet (§4.F/§6). -/
def Packet.is_online (pk : Packet) : Bool :=
  match pk with
  | .unconnectedPing _ | .unconnectedPong _ | .openConnectRequest _
  | .openConnectReply _ | .sessionInfoRequest _ | .sessionInfoReply _
  | .incompatibleProtocolVersion _ => false
  | _ => true

/-- The packet's single-byte ID (offline IDs from the `packet_id!` calls in
`offline.rs`; online IDs from §6 of the spec). -/
def Packet.pid (pk : Packet) : Nat :=
  match pk with
  | .unconnectedPing _ => UnconnectedPing.id
  | .unconnectedPong _ => UnconnectedPong.id
  | .openConnectRequest _ => OpenConnectRequest.id
  | .openConnectReply _ => OpenConnectReply.id
  | .sessionInfoRequest _ => SessionInfoRequest.id
  | .sessionInfoReply _ => SessionInfoReply.id
  | .incompatibleProtocolVersion _ => IncompatibleProtocolVersion.id
  | .connectedPing _ => 0x00
  | .connectedPong _ _ => 0x03
  | .connectionRequest _ _ => 0x09
  | .connectionRequestAccepted _ _ => 0x10
  | .newIncomingConnection => 0x13
  | .disconnectPk => 0x15

/-- `Packet::parse`: the ID byte followed by the body. Online bodies are
modelled from the spec (§4.E names their fields; `Disconnect` has none). -/
def Packet.parse (pk : Packet) : Bytes :=
  u8be pk.pid ++
    match pk with
    | .unconnectedPing p => p.parse
    | .unconnectedPong p => p.parse
    | .openConnectRequest p => p.parse
    | .openConnectReply p => p.parse
    | .sessionInfoRequest p => p.parse
    | .sessionInfoReply p => p.parse
    | .incompatibleProtocolVersion p => p.parse
    | .connectedPing time => u64be time
    | .connectedPong pingTime pongTime => u64be pingTime ++ u64be pongTime
    | .connectionRequest clientGuid time => u64be clientGuid ++ u64be time
    | .connectionRequestAccepted requestTime acceptedTime =>
        u64be requestTime ++ u64be acceptedTime
    | .newIncomingConnection => []
    | .disconnectPk => []

/-- `Packet::compose`: dispatch on the ID byte; unknown IDs (ACK, NAK,
FrameSets, …) fail, which `Connection::recv` treats as unparseable. Online
bodies are modelled from the spec. -/
def Packet.compose (source : Bytes) (pos : Nat) : Option Packet :=
  match source.get? pos with
  | none => none
  | some b =>
    if b = UnconnectedPing.id then
      (UnconnectedPing.compose source (pos + 1)).map (fun x => .unconnectedPing x.1)
    else if b = UnconnectedPong.id then
      (UnconnectedPong.compose source (pos + 1)).map (fun x => .unconnectedPong x.1)
    else if b = OpenConnectRequest.id then
      (OpenConnectRequest.compose source (pos + 1)).map (fun x => .openConnectRequest x.1)
    else if b = SessionInfoRequest.id then
      (SessionInfoRequest.compose source (pos + 1)).map (fun x => .sessionInfoRequest x.1)
    else if b = 0x00 then
      (u64c source (pos + 1)).map (fun x => .connectedPing x.1)
    else if b = 0x09 then
      match u64c source (pos + 1) with
      | some (g, p1) => (u64c source p1).map (fun x => .connectionRequest g x.1)
      | none => none
    else if b = 0x13 then some .newIncomingConnection
    else if b = 0x15 then some .disconnectPk
    else none

/-- A `SendCommand`: the `(address, bytes)` pair written to the shared
outbound channel (`conn.rs`). -/
abbrev SendCommand := String × Bytes

/-- The `Connection` struct of `conn.rs`. `SystemTime` values are `Nat`
milliseconds; the `tokio` sender handle is embedded as the list of commands
written to the channel so far; `RakNetVersion` is its protocol number. -/
structure Connection where
  address : String
  state : ConnectionState
  mtu : Nat
  recv_time : Nat
  start_time : Nat
  raknet_version : Nat
  motd : Motd
  server_guid : Nat
  queue : Queue Bytes
  send_channel : List SendCommand
  event_dispatch : List RakEvent
  ensure_disconnect : Bool
  deriving DecidableEq

/-- `Connection::new` (`conn.rs` lines 62–84). `now` stands for the
`SystemTime::now()` read into `recv_time`. -/
def Connection.new (address : String) (send_channel : List SendCommand)
    (start_time : Nat) (server_guid : Nat) (port : String)
    (raknet_version : Nat) (now : Nat) : Connection :=
  { address := address
    state := .Unidentified
    mtu := 1400
    recv_time := now
    start_time := start_time
    motd := Motd.new server_guid port
    server_guid := server_guid
    queue := Queue.new
    send_channel := send_channel
    event_dispatch := []
    raknet_version := raknet_version
    ensure_disconnect := false }

/-- `Connection::send_immediate`: writes `(address, stream)` to the shared
send channel. -/
def Connection.send_immediate (c : Connection) (stream : Bytes) : Connection :=
  { c with send_channel := c.send_channel ++ [(c.address, stream)] }

/-- `Connection::send_stream` (`conn.rs` lines 88–94): the `Immediate` branch
is an empty `todo` comment in the source, so nothing happens there; other
priorities are pushed to the queue at the given priority. -/
def Connection.send_stream (c : Connection) (stream : Bytes)
    (priority : SendPriority) : Connection :=
  if priority = SendPriority.Immediate then
    c
  else
    { c with queue := c.queue.push stream priority }

/-- `Connection::send_packet` (`conn.rs` lines 98–105): `Immediate` encodes
and sends at once; every other priority is pushed with the hard-coded
`SendPriority::Normal`. -/
def Connection.send_packet (c : Connection) (packet : Packet)
    (priority : SendPriority) : Connection :=
  if priority = SendPriority.Immediate then
    c.send_immediate packet.parse
  else
    { c with queue := c.queue.push packet.parse SendPriority.Normal }

/-- `Connection::send` (`conn.rs` lines 109–117). -/
def Connection.send (c : Connection) (stream : Bytes) (instant : Bool) : Connection :=
  if instant then
    c.send_immediate stream
  else
    { c with queue := c.queue.push stream SendPriority.Normal }

/-- `Connection::disconnect` (`conn.rs` lines 158–174): push the Disconnect
event, go `Offline`, set `ensure_disconnect`, freeze and flush the queue
(the flushed payloads are discarded), and when server-initiated send a
`Disconnect` packet immediately. -/
def Connection.disconnect (c : Connection) (reason : String)
    (server_initiated : Bool) : Connection :=
  let c1 : Connection :=
    { c with
      event_dispatch := c.event_dispatch ++ [RakEvent.Disconnect c.address reason]
      state := .Offline
      ensure_disconnect := true
      queue := ({ c.queue with frozen := true }.flush).1 }
  if server_initiated then
    c1.send_packet Packet.disconnectPk SendPriority.Immediate
  else
    c1

/-- `Connection::is_disconnected`: reads the internal `ensure_disconnect`
flag. -/
def Connection.is_disconnected (c : Connection) : Bool :=
  c.ensure_disconnect == true

/-- `Connection::tick` (`conn.rs` line 184): the body is empty. -/
def Connection.tick (c : Connection) : Connection := c

/-- Modelled from the spec: `handle_offline` of `crate::protocol::handler`
(module not among the provided sources), following the §4.E transitions.
Offline replies are unframed and sent immediately (§4.F). -/
def handle_offline (c : Connection) (pk : Packet) : Connection :=
  match c.state, pk with
  | .Unidentified, .unconnectedPing p =>
    c.send_immediate
      (Packet.unconnectedPong { timestamp := p.timestamp, server_id := c.server_guid }).parse
  | .Unidentified, .openConnectRequest p =>
    if p.protocol = c.raknet_version then
      { c.send_immediate
          (Packet.openConnectReply
            { server_id := c.server_guid, security := false,
              mtu_size := min p.mtu_size c.mtu }).parse with
        state := .Initializing }
    else
      c.send_immediate
        (Packet.incompatibleProtocolVersion
          { protocol := c.raknet_version, server_id := c.server_guid }).parse
  | .Initializing, .sessionInfoRequest p =>
    { c.send_immediate
        (Packet.sessionInfoReply
          { server_id := c.server_guid, client_address := p.address,
            mtu_size := p.mtu_size, security := false }).parse with
      state := .Connecting }
  | _, _ => c

/-- Modelled from the spec: `handle_online` of `crate::protocol::handler`
(module not among the provided sources), following the §4.E transitions.
Online replies travel inside frames, so they are queued (§4.F); `now` is the
handler's clock for `ConnectedPong`. A reliable `Disconnect` in `Connected`
state goes through `Connection::disconnect`. -/
def handle_online (c : Connection) (pk : Packet) (now : Nat) : Connection :=
  match c.state, pk with
  | _, .connectedPing time =>
    c.send_packet (Packet.connectedPong time now) SendPriority.Normal
  | .Connecting, .connectionRequest _ time =>
    c.send_packet (Packet.connectionRequestAccepted time now) SendPriority.Normal
  | .Connecting, .newIncomingConnection =>
    { c with state := .Connected,
             event_dispatch := c.event_dispatch ++ [RakEvent.Connect c.address] }
  | .Connected, .disconnectPk =>
    c.disconnect "client disconnect" false
  | _, _ => c

/-- The first half of `Connection::recv` (`conn.rs` lines 130–137): stamp
`recv_time` with `SystemTime::now()` (the `now` argument), and force an
un-reliable state back to `Unidentified`. -/
def Connection.recvPre (c : Connection) (now : Nat) : Connection :=
  let c1 : Connection := { c with recv_time := now }
  if c1.state.is_reliable then c1 else { c1 with state := .Unidentified }

/-- `Connection::recv` (`conn.rs` lines 129–156): after the preamble, parse
the payload and dispatch to the online or offline handler; an unparseable
buffer (ACK, NAK, FrameSet, …) is only logged. -/
def Connection.recv (c : Connection) (payload : Bytes) (now : Nat) : Connection :=
  let c2 : Connection := c.recvPre now
  match Packet.compose payload 0 with
  | some pk => if pk.is_online then handle_online c2 pk now else handle_offline c2 pk
  | none => c2

/-- One externally drivable operation on a `Connection`. -/
inductive Op where
  | sendStream (stream : Bytes) (priority : SendPriority)
  | sendPacket (pk : Packet) (priority : SendPriority)
  | send (stream : Bytes) (instant : Bool)
  | sendImmediate (stream : Bytes)
  | recv (payload : Bytes) (now : Nat)
  | disconnect (reason : String) (server_initiated : Bool)
  | tick

/-- Apply one operation to a connection. -/
def applyOp (c : Connection) (op : Op) : Connection :=
  match op with
  | .sendStream s p => c.send_stream s p
  | .sendPacket pk p => c.send_packet pk p
  | .send s instant => c.send s instant
  | .sendImmediate s => c.send_immediate s
  | .recv payload now => c.recv payload now
  | .disconnect r si => c.disconnect r si
  | .tick => c.tick

/-- Run a trace of operations. -/
def runOps (c : Connection) (ops : List Op) : Connection :=
  ops.foldl applyOp c

/-- Whether executing `op` on `c` enters `Connection::disconnect`: either the
operation is `disconnect` itself, or it is a `recv` whose payload parses to an
online `Disconnect` packet while the connection (after the reliability check)
is `Connected`. These are the only call sites of `disconnect`. -/
def callsDisconnect (c : Connection) (op : Op) : Bool :=
  match op with
  | .disconnect _ _ => true
  | .recv payload now =>
    match Packet.compose payload 0 with
    | some .disconnectPk => decide ((c.recvPre now).state = .Connected)
    | _ => false
  | _ => false

/-- Whether some step of the trace enters `Connection::disconnect`. -/
def anyCallsDisconnect (c : Connection) (ops : List Op) : Bool :=
  (ops.foldl (fun st op => (applyOp st.1 op, st.2 || callsDisconnect st.1 op))
    (c, false)).2

/-- Helper: `is_disconnected` is the raw `ensure_disconnect` flag. -/
theorem is_disconnected_eq (c : Connection) :
    c.is_disconnected = c.ensure_disconnect := by
  simp [Connection.is_disconnected]

/-- Helper: the recv preamble never touches `ensure_disconnect`. -/
theorem recvPre_ensure_disconnect (c : Connection) (now : Nat) :
    (c.recvPre now).ensure_disconnect = c.ensure_disconnect := by
  unfold Connection.recvPre
  by_cases h : ({ c with recv_time := now } : Connection).state.is_reliable <;> simp [h]

/-- Helper: the recv preamble forces an un-reliable state to `Unidentified`. -/
theorem recvPre_state_of_not_reliable (c : Connection) (now : Nat)
    (h : c.state.is_reliable = false) :
    (c.recvPre now).state = ConnectionState.Unidentified := by
  unfold Connection.recvPre
  simp [h]

/-- Helper: the offline handler never touches `ensure_disconnect`. -/
theorem handle_offline_ensure_disconnect (c : Connection) (pk : Packet) :
    (handle_offline c pk).ensure_disconnect = c.ensure_disconnect := by
  unfold handle_offline
  cases hs : c.state <;> cases pk <;> dsimp only <;>
    first
      | rfl
      | (split_ifs <;> rfl)

/-- Helper: the online handler sets `ensure_disconnect` exactly when it takes
the `Connected` + `Disconnect` branch (through `Connection::disconnect`). -/
theorem handle_online_ensure_disconnect (c : Connection) (pk : Packet) (now : Nat) :
    (handle_online c pk now).ensure_disconnect
      = (c.ensure_disconnect
          || (decide (c.state = ConnectionState.Connected)
              && decide (pk = Packet.disconnectPk))) := by
  unfold handle_online
  cases hs : c.state <;> cases pk <;>
    simp [Connection.send_packet, Connection.send_immediate, Connection.disconnect,
      Queue.flush]

/-- Helper: one step changes `is_disconnected` from `false` to `true` exactly
when it enters `Connection::disconnect`; nothing ever clears it. -/
theorem applyOp_is_disconnected (c : Connection) (op : Op) :
    (applyOp c op).is_disconnected = (c.is_disconnected || callsDisconnect c op) := by
  cases op with
  | sendStream s p =>
    by_cases h : p = SendPriority.Immediate <;>
      simp [applyOp, Connection.send_stream, callsDisconnect, is_disconnected_eq, h]
  | sendPacket pk p =>
    by_cases h : p = SendPriority.Immediate <;>
      simp [applyOp, Connection.send_packet, Connection.send_immediate, callsDisconnect,
        is_disconnected_eq, h]
  | send s instant =>
    cases instant <;>
      simp [applyOp, Connection.send, Connection.send_immediate, callsDisconnect,
        is_disconnected_eq]
  | sendImmediate s =>
    simp [applyOp, Connection.send_immediate, callsDisconnect, is_disconnected_eq]
  | tick =>
    simp [applyOp, Connection.tick, callsDisconnect, is_disconnected_eq]
  | disconnect r si =>
    cases si <;>
      simp [applyOp, Connection.disconnect, Connection.send_packet,
        Connection.send_immediate, Queue.flush, callsDisconnect, is_disconnected_eq]
  | recv payload now =>
    simp only [applyOp, Connection.recv, callsDisconnect]
    cases hc : Packet.compose payload 0 with
    | none => simp [is_disconnected_eq, recvPre_ensure_disconnect]
    | some pk =>
      cases pk <;>
        simp [Packet.is_online, is_disconnected_eq, handle_offline_ensure_disconnect,
          handle_online_ensure_disconnect, recvPre_ensure_disconnect]

/-- Helper: the accumulator of `anyCallsDisconnect` distributes over its
initial flag. -/
theorem anyCallsDisconnect_aux (ops : List Op) : ∀ (c : Connection) (b : Bool),
    (ops.foldl (fun st op => (applyOp st.1 op, st.2 || callsDisconnect st.1 op)) (c, b)).2
      = (b || anyCallsDisconnect c ops) := by
  induction ops with
  | nil => intro c b; simp [anyCallsDisconnect]
  | cons op ops ih =>
    intro c b
    simp only [List.foldl_cons, anyCallsDisconnect]
    rw [ih, ih]
    cases b <;> cases callsDisconnect c op <;> simp

/-- Helper: over a whole trace, `is_disconnected` holds exactly when it held
initially or some step entered `Connection::disconnect`. -/
theorem runOps_is_disconnected (c : Connection) (ops : List Op) :
    (runOps c ops).is_disconnected = (c.is_disconnected || anyCallsDisconnect c ops) := by
  induction ops generalizing c with
  | nil => simp [runOps, anyCallsDisconnect]
  | cons op ops ih =>
    have h1 : runOps c (op :: ops) = runOps (applyOp c op) ops := rfl
    rw [h1, ih, applyOp_is_disconnected]
    have h2 : anyCallsDisconnect c (op :: ops)
        = (callsDisconnect c op || anyCallsDisconnect (applyOp c op) ops) := by
      simp only [anyCallsDisconnect, List.foldl_cons]
      rw [anyCallsDisconnect_aux]
      simp [anyCallsDisconnect]
    rw [h2, Bool.or_assoc]

/-- C1: the claim says a payload pushed with `Immediate` priority via
`Connection::send_stream` is flushed and emitted out-of-band right after
enqueue. In the source the `Immediate` branch is an empty `todo` comment: the
connection is returned unchanged — nothing is queued and nothing reaches the
send channel, so the payload is silently discarded. -/
theorem c1_send_stream_immediate_discarded (c : Connection) (stream : Bytes) :
    c.send_stream stream SendPriority.Immediate = c ∧
    (c.send_stream stream SendPriority.Immediate).send_channel = c.send_channel ∧
    (c.send_stream stream SendPriority.Immediate).queue = c.queue := by
  refine ⟨?_, ?_, ?_⟩ <;> simp [Connection.send_stream]

/-- C2: the claim says `tick` drives the send-queue flush, ACK emission, RTO
resends and timeout checks, moving a timed-out connection to `Offline` with a
`Disconnect("timeout")` event. The source body of `Connection::tick` is empty:
it changes nothing — no state transition, no event, no sends — even when the
last receive is arbitrarily old. -/
theorem c2_tick_is_noop (c : Connection) :
    c.tick = c ∧ (c.tick).state = c.state ∧
    (c.tick).event_dispatch = c.event_dispatch ∧
    (c.tick).send_channel = c.send_channel := by
  exact ⟨rfl, rfl, rfl, rfl⟩

/-- C4: a `Connection` built by `Connection::new` starts `Unidentified` with
MTU 1400, an empty send queue, an empty event queue, and
`is_disconnected() = false`. -/
theorem c4_new_connection_initial_state (address : String)
    (send_channel : List SendCommand) (start_time server_guid : Nat)
    (port : String) (raknet_version now : Nat) :
    (Connection.new address send_channel start_time server_guid port
        raknet_version now).state = ConnectionState.Unidentified ∧
    (Connection.new address send_channel start_time server_guid port
        raknet_version now).mtu = 1400 ∧
    (Connection.new address send_channel start_time server_guid port
        raknet_version now).queue = Queue.new ∧
    (Connection.new address send_channel start_time server_guid port
        raknet_version now).queue.normal = [] ∧
    (Connection.new address send_channel start_time server_guid port
        raknet_version now).queue.low = [] ∧
    (Connection.new address send_channel start_time server_guid port
        raknet_version now).event_dispatch = [] ∧
    (Connection.new address send_channel start_time server_guid port
        raknet_version now).is_disconnected = false := by
  refine ⟨rfl, rfl, rfl, rfl, rfl, rfl, rfl⟩

/-- C5: the claim says `Connection::send_packet` enqueues at the given
priority, so a `Low` packet stays `Low`. The source hard-codes
`SendPriority::Normal` in the queue push for every non-`Immediate` priority:
a `Low`-priority packet lands in the Normal lane and the Low lane is never
touched. -/
theorem c5_send_packet_low_enqueued_as_normal (c : Connection) (pk : Packet) :
    (c.send_packet pk SendPriority.Low).queue = c.queue.push pk.parse SendPriority.Normal ∧
    (c.send_packet pk SendPriority.Low).queue.low = c.queue.low ∧
    (c.queue.frozen = false →
      (c.send_packet pk SendPriority.Low).queue.normal = c.queue.normal ++ [pk.parse]) := by
  refine ⟨by simp [Connection.send_packet], ?_, ?_⟩
  · by_cases h : c.queue.frozen <;> simp [Connection.send_packet, Queue.push, h]
  · intro hf
    simp [Connection.send_packet, Queue.push, hf]

/-- C5 witness: the general statement applied to a fresh connection and a
concrete packet. -/
theorem c5_send_packet_low_enqueued_as_normal_witness :
    ((Connection.new "1.2.3.4:19132" [] 0 0 "19132" 10 0).send_packet
        Packet.disconnectPk SendPriority.Low).queue.normal
      = (Connection.new "1.2.3.4:19132" [] 0 0 "19132" 10 0).queue.normal
          ++ [Packet.disconnectPk.parse] :=
  (c5_send_packet_low_enqueued_as_normal
    (Connection.new "1.2.3.4:19132" [] 0 0 "19132" 10 0) Packet.disconnectPk).2.2 rfl

/-- C7: every offline control packet ID is the documented value and lies in
`0x00..=0x1f`. -/
theorem c7_offline_packet_ids_in_range :
    UnconnectedPing.id = 0x01 ∧ OpenConnectRequest.id = 0x05 ∧
    OpenConnectReply.id = 0x06 ∧ SessionInfoRequest.id = 0x07 ∧
    SessionInfoReply.id = 0x08 ∧ IncompatibleProtocolVersion.id = 0x19 ∧
    UnconnectedPong.id = 0x1c ∧
    UnconnectedPing.id ≤ 0x1f ∧ OpenConnectRequest.id ≤ 0x1f ∧
    OpenConnectReply.id ≤ 0x1f ∧ SessionInfoRequest.id ≤ 0x1f ∧
    SessionInfoReply.id ≤ 0x1f ∧ IncompatibleProtocolVersion.id ≤ 0x1f ∧
    UnconnectedPong.id ≤ 0x1f := by
  decide

/-- C8: with the `mcpe` feature disabled, the `UnconnectedPong` body is
exactly a `u64` timestamp, a `u64` server_id and the 16-byte magic — 32 bytes,
no MOTD string — and its packet ID is `0x1c`. -/
theorem c8_unconnected_pong_layout (ts sid : Nat) :
    UnconnectedPong.parse { timestamp := ts, server_id := sid }
        = u64be ts ++ u64be sid ++ magicBytes ∧
    (UnconnectedPong.parse { timestamp := ts, server_id := sid }).length = 32 ∧
    UnconnectedPong.id = 0x1c := by
  refine ⟨rfl, ?_, rfl⟩
  simp [UnconnectedPong.parse, u64be, magicBytes]

/-- C3: after `Connection::disconnect(reason, server_initiated)` the event
queue ends with `Disconnect(address, reason)`, the state is `Offline`, the
send queue is frozen and emptied (so packets queued before the call are never
emitted — nothing reaches the send channel from the queue), and exactly when
`server_initiated` a `Disconnect` packet is written to the channel
immediately. -/
theorem c3_disconnect_effects (c : Connection) (r : String) (si : Bool) :
    (c.disconnect r si).event_dispatch
        = c.event_dispatch ++ [RakEvent.Disconnect c.address r] ∧
    (c.disconnect r si).state = ConnectionState.Offline ∧
    (c.disconnect r si).queue.frozen = true ∧
    (c.disconnect r si).queue.normal = [] ∧
    (c.disconnect r si).queue.low = [] ∧
    (c.disconnect r si).is_disconnected = true ∧
    (si = true → (c.disconnect r si).send_channel
        = c.send_channel ++ [(c.address, Packet.disconnectPk.parse)]) ∧
    (si = false → (c.disconnect r si).send_channel = c.send_channel) := by
  cases si <;>
    simp [Connection.disconnect, Connection.send_packet, Connection.send_immediate,
      Queue.flush, Connection.is_disconnected]

/-- C3 witness: the general statement applied to a server-initiated
disconnect of a fresh connection. -/
theorem c3_disconnect_effects_witness :
    ((Connection.new "1.2.3.4:19132" [] 0 7 "19132" 10 0).disconnect "kick" true).send_channel
      = (Connection.new "1.2.3.4:19132" [] 0 7 "19132" 10 0).send_channel
          ++ [((Connection.new "1.2.3.4:19132" [] 0 7 "19132" 10 0).address,
               Packet.disconnectPk.parse)] :=
  (c3_disconnect_effects (Connection.new "1.2.3.4:19132" [] 0 7 "19132" 10 0)
    "kick" true).2.2.2.2.2.2.1 rfl

/-- C6 counterexample: in `UnconnectedPing` the magic cookie is *not*
immediately after the packet-ID byte — the body starts with the 8-byte
timestamp. At `timestamp = 0`, `client_id = 0` the first 16 body bytes differ
from the magic. -/
theorem c6_counterexample_ping_magic_not_first :
    (UnconnectedPing.parse { timestamp := 0, client_id := 0 }).take 16 ≠ magicBytes := by
  decide

/-- C6 amended: every offline packet body contains the 16-byte magic cookie,
but it sits immediately after the ID only in `OpenConnectRequest`,
`OpenConnectReply`, `SessionInfoRequest` and `SessionInfoReply`;
`UnconnectedPing` places it after its 8-byte timestamp, `UnconnectedPong`
after its timestamp and server_id (16 bytes), and
`IncompatibleProtocolVersion` starts with the protocol byte with the magic
right after it. -/
theorem c6_amended_magic_positions (ping : UnconnectedPing) (pong : UnconnectedPong)
    (ocreq : OpenConnectRequest) (ocrep : OpenConnectReply)
    (sireq : SessionInfoRequest) (sirep : SessionInfoReply)
    (ipv : IncompatibleProtocolVersion) :
    ((ping.parse).drop 8).take 16 = magicBytes ∧
    ((pong.parse).drop 16).take 16 = magicBytes ∧
    (ocreq.parse).take 16 = magicBytes ∧
    (ocrep.parse).take 16 = magicBytes ∧
    (sireq.parse).take 16 = magicBytes ∧
    (sirep.parse).take 16 = magicBytes ∧
    (ipv.parse).take 1 = [ipv.protocol % 256] ∧
    ((ipv.parse).drop 1).take 16 = magicBytes :=
  ⟨rfl, rfl, rfl, rfl, rfl, rfl, rfl, rfl⟩

/-- C9: `is_disconnected()` reads a latch — it starts `false`, is set by every
entry into `Connection::disconnect` (and only there: over any trace it equals
"some step called disconnect"), and no subsequent operation clears it. A
`recv` in an un-reliable state (such as `Offline` after a disconnect) resets
the state to `Unidentified` while preserving the flag, so `is_disconnected()`
does not imply `state == Offline`. -/
theorem c9_is_disconnected_latch :
    (∀ (address : String) (send_channel : List SendCommand)
        (start_time server_guid : Nat) (port : String) (raknet_version now : Nat),
      (Connection.new address send_channel start_time server_guid port
          raknet_version now).is_disconnected = false) ∧
    (∀ (c : Connection) (r : String) (si : Bool),
      (c.disconnect r si).is_disconnected = true) ∧
    (∀ (c : Connection) (op : Op),
      (applyOp c op).is_disconnected = (c.is_disconnected || callsDisconnect c op)) ∧
    (∀ (c : Connection) (ops : List Op), c.is_disconnected = false →
      ((runOps c ops).is_disconnected = true ↔ anyCallsDisconnect c ops = true)) ∧
    (∀ (c : Connection) (payload : Bytes) (now : Nat),
      c.state.is_reliable = false →
        (c.recv payload now).is_disconnected = c.is_disconnected ∧
        (c.recvPre now).state = ConnectionState.Unidentified) ∧
    (((Connection.new "a" [] 0 0 "19132" 10 0).disconnect "bye" false).recv [] 5
        |>.is_disconnected) = true ∧
    (((Connection.new "a" [] 0 0 "19132" 10 0).disconnect "bye" false).recv [] 5
        |>.state) = ConnectionState.Unidentified ∧
    (((Connection.new "a" [] 0 0 "19132" 10 0).disconnect "bye" false).recv [] 5
        |>.state) ≠ ConnectionState.Offline := by
  refine ⟨?_, ?_, applyOp_is_disconnected, ?_, ?_, ?_, ?_, ?_⟩
  · intro address send_channel start_time server_guid port raknet_version now
    rfl
  · intro c r si
    cases si <;>
      simp [Connection.disconnect, Connection.send_packet, Connection.send_immediate,
        Queue.flush, Connection.is_disconnected]
  · intro c ops h
    rw [runOps_is_disconnected, h, Bool.false_or]
  · intro c payload now h
    constructor
    · have hs := applyOp_is_disconnected c (Op.recv payload now)
      simp only [applyOp] at hs
      rw [hs]
      have hfalse : callsDisconnect c (Op.recv payload now) = false := by
        simp only [callsDisconnect]
        generalize Packet.compose payload 0 = o
        cases o with
        | none => rfl
        | some pk =>
          cases pk <;> simp [recvPre_state_of_not_reliable c now h]
      rw [hfalse, Bool.or_false]
    · exact recvPre_state_of_not_reliable c now h
  · rfl
  · rfl
  · decide

/-- C9 witness: the flag-preservation clause applied to a concrete
disconnected connection receiving a concrete payload. -/
theorem c9_is_disconnected_latch_witness :
    (((Connection.new "w" [] 0 0 "19132" 10 0).disconnect "x" false).recv [0xc0, 1] 9
        |>.is_disconnected)
      = ((Connection.new "w" [] 0 0 "19132" 10 0).disconnect "x" false).is_disconnected :=
  (c9_is_disconnected_latch.2.2.2.2.1
    ((Connection.new "w" [] 0 0 "19132" 10 0).disconnect "x" false)
    [0xc0, 1] 9 rfl).1

/-- C10: `OpenConnectRequest::compose` derives `mtu_size` from the buffer
length (`(len + 1 + 28) as u16`), ignoring the padding contents, while
`parse` emits magic, protocol byte, then `mtu_size` zero bytes; hence
decode∘encode shifts `mtu_size` by 46 (mod 2^16) and is never a round-trip
on that field. -/
theorem c10_open_connect_request_mtu_shift :
    (∀ (source : Bytes) (x : OpenConnectRequest) (p2 : Nat),
        OpenConnectRequest.compose source 0 = some (x, p2) →
        x.mtu_size = (source.length + 1 + 28) % 2 ^ 16) ∧
    (∀ p : OpenConnectRequest,
        p.parse = magicBytes ++ [p.protocol % 256] ++ List.replicate p.mtu_size 0) ∧
    (∀ p : OpenConnectRequest, p.mtu_size < 2 ^ 16 →
        OpenConnectRequest.compose p.parse 0
          = some ({ protocol := p.protocol % 256,
                    mtu_size := (p.mtu_size + 46) % 2 ^ 16 }, 17) ∧
        (p.mtu_size + 46) % 2 ^ 16 ≠ p.mtu_size) := by
  refine ⟨?_, ?_, ?_⟩
  · intro source x p2 h
    unfold OpenConnectRequest.compose at h
    cases hm : Magic.compose source 0 with
    | none =>
      rw [hm] at h
      exact Option.noConfusion h
    | some mp =>
      obtain ⟨m, p1⟩ := mp
      rw [hm] at h
      dsimp only at h
      cases hu : u8c source p1 with
      | none =>
        rw [hu] at h
        exact Option.noConfusion h
      | some bp =>
        obtain ⟨b, pp⟩ := bp
        rw [hu] at h
        dsimp only at h
        injection h with h1
        injection h1 with hx hpos
        rw [← hx]
  · intro p
    rfl
  · intro p hp
    have hlen : p.parse.length = 17 + p.mtu_size := by
      simp [OpenConnectRequest.parse, u8be, magicBytes]
      omega
    have hm : Magic.compose p.parse 0 = some (⟨⟩, 16) := by
      unfold Magic.compose
      rw [if_pos (by rw [hlen]; omega)]
    have hu : u8c p.parse 16 = some (p.protocol % 256, 17) := rfl
    constructor
    · simp only [OpenConnectRequest.compose, hm, hu]
      rw [hlen]
      have harith : 17 + p.mtu_size + 1 + 28 = p.mtu_size + 46 := by omega
      rw [harith]
    · omega

/-- C10 witness: decode∘encode on a concrete request with `mtu_size = 1200`
yields `mtu_size = 1246`. -/
theorem c10_open_connect_request_mtu_shift_witness :
    OpenConnectRequest.compose
        (OpenConnectRequest.parse { protocol := 10, mtu_size := 1200 }) 0
      = some ({ protocol := 10 % 256, mtu_size := (1200 + 46) % 2 ^ 16 }, 17) :=
  (c10_open_connect_request_mtu_shift.2.2 { protocol := 10, mtu_size := 1200 }
    (by decide)).1

end RakNet
